import Mathlib

/-!
Verification development for the api-health-monitor service.

Shallow embedding of the core logic of the repository:
* app/api_client.py    - probe client (test_model_connectivity)
* app/scheduler.py     - two-phase scheduled cycle and next-run computation
* app/routers/settings.py - settings update route and scheduler rebuild guard
* app/routers/tests.py - manual test endpoints and the statistics aggregator
* app/notifier.py      - quiet-hours aware notification channels

Timestamps are modelled as whole seconds (Unix-style, the epoch falling on a
UTC midnight); machine floats in the Python source only ever carry values
whose floors agree with exact rational arithmetic at this granularity, which
is recorded at each definition concerned.
-/

namespace APIHealthMonitor

/-- Surrogate for a Python exception raised during a request handler.
Attribute access on an object that does not define the attribute raises
AttributeError naming the attribute. -/
inductive PyError where
  | attributeError (attr : String)
deriving DecidableEq, Repr

/-! ## Probe client (app/api_client.py) -/

/-- The observable behaviour of the upstream endpoint during one probe, as
discriminated by test_model_connectivity (api_client.py:109-143): an HTTP
response carrying a status, the optional "choices" list of the JSON body
(none models a body without a "choices" key) and the extracted error detail
text; or one of the three exception classes caught by the client. -/
inductive ProbeResponse where
  | http (status : Nat) (choices : Option (List String)) (detail : String)
  | timeout
  | connectError
  | otherException (msg : String)
deriving DecidableEq

/-- _get_brief_error_message (api_client.py:146-165): fixed Chinese text per
known status code, with the extracted detail appended when it is a nonempty
string shorter than 50 characters. -/
def get_brief_error_message (status : Nat) (detail : String) : String :=
  let base :=
    match status with
    | 400 => "请求错误"
    | 401 => "认证失败"
    | 403 => "拒绝访问"
    | 404 => "模型未找到"
    | 429 => "频率限制"
    | 500 => "服务器错误"
    | 502 => "网关错误"
    | 503 => "服务不可用"
    | 504 => "网关超时"
    | _ => "HTTP " ++ toString status
  if detail ≠ "" ∧ detail.length < 50 then base ++ ": " ++ detail else base

/-- test_model_connectivity (api_client.py:74-143).  `configured` is the
truthiness of both api_base_url and api_key; the outcome triple is
(success, error_code, error_message).  HTTP 200 with a nonempty choices list
is the only success; 200 without choices yields the synthetic "empty
response" outcome with code 200; timeouts, connection errors and any other
exception yield the sentinel codes 408, 503 and 500, the last with the
exception text truncated to 50 characters. -/
def test_model_connectivity (configured : Bool) (resp : ProbeResponse) :
    Bool × Option Nat × Option String :=
  if configured = false then (false, some 0, some "API未配置")
  else
    match resp with
    | .http status choices detail =>
      if status = 200 then
        match choices with
        | some cs =>
          if cs.length > 0 then (true, none, none)
          else (false, some 200, some "空响应")
        | none => (false, some 200, some "空响应")
      else (false, some status, some (get_brief_error_message status detail))
    | .timeout => (false, some 408, some "请求超时 (60秒)")
    | .connectError => (false, some 503, some "连接失败")
    | .otherException msg => (false, some 500, some ("错误: " ++ msg.take 50))

/-! ## Next-run computation (app/scheduler.py:155-199)

The Python code works on wall-clock datetimes in the fixed +8:00 zone (no
daylight saving).  We measure instants in seconds since the local midnight of
the current day, so that today_start is determined by the configured hour and
minute alone.  elapsed_minutes is computed in Python as a real number
(elapsed seconds divided by 60) and then floor-divided by interval_minutes;
for whole-second inputs ⌊(e/60)/i⌋ = ⌊e/(60·i)⌋, which is the natural-number
division below. -/

/-- The next-run instant computed by update_scheduler_settings
(scheduler.py:172-187), in seconds since local (+8:00) midnight of today. -/
def compute_next_run (interval_minutes start_hour start_minute now : Nat) : Nat :=
  let today_start := start_hour * 3600 + start_minute * 60
  if now < today_start then today_start
  else
    let elapsed_seconds := now - today_start
    let intervals_passed := elapsed_seconds / (60 * interval_minutes) + 1
    today_start + intervals_passed * (interval_minutes * 60)

/-- The single APScheduler job "model_health_check" owned by the scheduler. -/
structure SchedJob where
  interval_minutes : Nat
  next_run : Nat
deriving DecidableEq, Repr

/-- update_scheduler_settings (scheduler.py:155-199) as a transition on the
scheduler's job state: the existing job (if any) is removed and a single new
job is installed with the freshly computed next-run instant, so the result
does not depend on the previous state. -/
def update_scheduler_settings (_st : Option SchedJob)
    (interval_minutes start_hour start_minute now : Nat) : Option SchedJob :=
  some { interval_minutes := interval_minutes
         next_run := compute_next_run interval_minutes start_hour start_minute now }

/-! ## Settings record and the settings update route -/

/-- The columns mapped by the SQLAlchemy model Settings (app/models.py:21-52).
Note that no test_start_hour or test_start_minute column is mapped there,
although database.py adds such columns to the underlying table and the
routers and the scheduler read the attributes.  updated_at is omitted as it
never feeds any computation in scope. -/
structure SettingsORM where
  id : Nat := 1
  api_base_url : String := ""
  api_key : String := ""
  test_interval_minutes : Nat := 60
  smtp_enabled : Bool := false
  smtp_host : String := ""
  smtp_port : Nat := 587
  smtp_username : String := ""
  smtp_password : String := ""
  smtp_from : String := ""
  smtp_use_tls : Bool := true
  admin_email : String := ""
  webhook_enabled : Bool := false
  webhook_url : String := ""
  logo_url : String := ""
  site_title : String := "API Health Monitor"
deriving DecidableEq, Repr

/-- The fields declared on the pydantic schema SettingsUpdate
(app/schemas.py:43-62).  The schema declares no test_start_hour and no
test_start_minute field, and pydantic ignores unknown keys of the request
body, so a client cannot supply those values through this schema. -/
structure SettingsUpdate where
  api_base_url : Option String := none
  api_key : Option String := none
  test_interval_minutes : Option Nat := none
  smtp_enabled : Option Bool := none
  smtp_host : Option String := none
  smtp_port : Option Nat := none
  smtp_username : Option String := none
  smtp_password : Option String := none
  smtp_from : Option String := none
  smtp_use_tls : Option Bool := none
  admin_email : Option String := none
  webhook_enabled : Option Bool := none
  webhook_url : Option String := none
  logo_url : Option String := none
  site_title : Option String := none
deriving DecidableEq, Repr

/-- Python attribute access for the integer-typed scheduling attributes read
off a Settings ORM instance by the routers and the scheduler.  Only the
columns mapped in app/models.py exist as attributes; any other name raises
AttributeError (in particular "test_start_hour" and "test_start_minute"). -/
def settings_getattr_int (s : SettingsORM) (name : String) : Except PyError Nat :=
  if name = "id" then .ok s.id
  else if name = "test_interval_minutes" then .ok s.test_interval_minutes
  else if name = "smtp_port" then .ok s.smtp_port
  else .error (.attributeError name)

/-- Python attribute access for optional-integer fields of a parsed
SettingsUpdate value; a pydantic model raises AttributeError for a field it
does not declare (in particular "test_start_hour" and "test_start_minute"). -/
def settings_update_getattr (d : SettingsUpdate) (name : String) :
    Except PyError (Option Nat) :=
  if name = "test_interval_minutes" then .ok d.test_interval_minutes
  else if name = "smtp_port" then .ok d.smtp_port
  else .error (.attributeError name)

/-- The setattr loop of update_settings (settings.py:87-93): every field
present in the update that is also an attribute of Settings is written. -/
def apply_settings_update (d : SettingsUpdate) (s : SettingsORM) : SettingsORM :=
  { s with
    api_base_url := d.api_base_url.getD s.api_base_url
    api_key := d.api_key.getD s.api_key
    test_interval_minutes := d.test_interval_minutes.getD s.test_interval_minutes
    smtp_enabled := d.smtp_enabled.getD s.smtp_enabled
    smtp_host := d.smtp_host.getD s.smtp_host
    smtp_port := d.smtp_port.getD s.smtp_port
    smtp_username := d.smtp_username.getD s.smtp_username
    smtp_password := d.smtp_password.getD s.smtp_password
    smtp_from := d.smtp_from.getD s.smtp_from
    smtp_use_tls := d.smtp_use_tls.getD s.smtp_use_tls
    admin_email := d.admin_email.getD s.admin_email
    webhook_enabled := d.webhook_enabled.getD s.webhook_enabled
    webhook_url := d.webhook_url.getD s.webhook_url
    logo_url := d.logo_url.getD s.logo_url
    site_title := d.site_title.getD s.site_title }

/-- The rebuild guard of update_settings (settings.py:96-98):
data.test_interval_minutes is not None or data.test_start_hour is not None
or data.test_start_minute is not None.  Python evaluates the disjuncts left
to right, so when the first is true the missing attributes are never read;
otherwise the access data.test_start_hour raises. -/
def scheduler_rebuild_guard (d : SettingsUpdate) : Except PyError Bool :=
  if d.test_interval_minutes.isSome then .ok true
  else do
    let h ← settings_update_getattr d "test_start_hour"
    if h.isSome then pure true
    else do
      let m ← settings_update_getattr d "test_start_minute"
      pure m.isSome

/-- PUT /api/settings (settings.py:78-109).  The field updates are committed
before the scheduler is touched, so the mutated settings record is returned
even when the rebuild part raises; the second component is the scheduler job
state produced, or the exception escaping the handler.  The Python call
passes settings.test_interval_minutes or 60 (falsiness: 0 becomes 60) and
then reads settings.test_start_hour, which raises AttributeError because the
ORM model maps no such column. -/
def update_settings_route (d : SettingsUpdate) (s : SettingsORM)
    (st : Option SchedJob) (now : Nat) :
    SettingsORM × Except PyError (Option SchedJob) :=
  let s2 := apply_settings_update d s
  (s2,
    do
      let rebuild ← scheduler_rebuild_guard d
      if rebuild then do
        let iv := if s2.test_interval_minutes = 0 then 60 else s2.test_interval_minutes
        let sh ← settings_getattr_int s2 "test_start_hour"
        let sm ← settings_getattr_int s2 "test_start_minute"
        pure (update_scheduler_settings st iv sh sm now)
      else pure st)

/-! ## Result store rows and the aggregator (app/routers/tests.py) -/

/-- One TestResult row (app/models.py:70-82), restricted to the columns the
aggregator reads.  tested_at is UTC seconds. -/
structure TestResultRow where
  model_id : Nat
  tested_at : Nat
  success : Bool
deriving DecidableEq, Repr

/-- The +8:00 reference zone offset, in seconds. -/
def BEIJING_OFFSET : Nat := 28800

/-- Fold step selecting the later of the accumulated row and the next row. -/
def later_of (acc : Option TestResultRow) (r : TestResultRow) : Option TestResultRow :=
  match acc with
  | none => some r
  | some a => if a.tested_at < r.tested_at then some r else some a

/-- The query .order_by(tested_at.desc()).first() over a bucket: the row with
the greatest tested_at (an earlier row is kept on ties). -/
def last_by_tested_at (l : List TestResultRow) : Option TestResultRow :=
  l.foldl later_of none

/-- Start of the i-th hour slot (i = 0 is the oldest of the 24), in Beijing
wall-clock seconds: the current Beijing hour floor minus (23 - i) hours
(tests.py:216-220). -/
def slot_start_beijing (now i : Nat) : Nat :=
  ((now + BEIJING_OFFSET) / 3600) * 3600 - (23 - i) * 3600

/-- The same slot start converted back to UTC seconds (tests.py:222-224). -/
def slot_start_utc (now i : Nat) : Nat :=
  slot_start_beijing now i - BEIJING_OFFSET

/-- The rows of one model landing in the i-th hour slot
(tests.py:227-231). -/
def bucket_rows (rows : List TestResultRow) (mid now i : Nat) : List TestResultRow :=
  rows.filter fun r =>
    decide (r.model_id = mid ∧ slot_start_utc now i ≤ r.tested_at ∧
      r.tested_at < slot_start_utc now i + 3600)

/-- One element of the hourly status answer (schemas.py HourlyStatus):
timestamp is the slot start as Beijing wall-clock seconds, success is none
when no probe landed in the slot. -/
structure HourlyStatusRow where
  hour : Nat
  timestamp : Nat
  success : Option Bool
deriving DecidableEq, Repr

/-- _calculate_hourly_status (tests.py:201-245): the 24 one-hour buckets
ending at the current Beijing hour, each taking the outcome of the last
probe in the bucket, or no-data. -/
def calculate_hourly_status (rows : List TestResultRow) (mid now : Nat) :
    List HourlyStatusRow :=
  (List.range 24).map fun i =>
    { hour := slot_start_beijing now i / 3600 % 24
      timestamp := slot_start_beijing now i
      success := (last_by_tested_at (bucket_rows rows mid now i)).map (·.success) }

/-- Round-half-to-even of a rational, as performed by Python round() at the
exactly representable values produced here. -/
def round_half_even (q : ℚ) : ℤ :=
  if q - ⌊q⌋ < 1/2 then ⌊q⌋
  else if 1/2 < q - ⌊q⌋ then ⌊q⌋ + 1
  else if ⌊q⌋ % 2 = 0 then ⌊q⌋ else ⌊q⌋ + 1

/-- round(x, 1): round to one decimal place. -/
def round1 (q : ℚ) : ℚ := (round_half_even (10 * q) : ℚ) / 10

/-- _calculate_rate (tests.py:248-266): None when no row of the model lies in
the window [now - days·86400, ∞), else the success percentage rounded to one
decimal.  The window cutoff is a Nat subtraction, adequate because every
stored timestamp is nonnegative. -/
def calculate_rate (rows : List TestResultRow) (mid now days : Nat) : Option ℚ :=
  let cutoff := now - days * 86400
  let total := (rows.filter fun r =>
    decide (r.model_id = mid ∧ cutoff ≤ r.tested_at)).length
  if total = 0 then none
  else
    let succ_count := (rows.filter fun r =>
      decide (r.model_id = mid ∧ cutoff ≤ r.tested_at ∧ r.success = true)).length
    some (round1 ((succ_count : ℚ) / (total : ℚ) * 100))

/-! ## Notifier (app/notifier.py) -/

/-- is_quiet_hours (notifier.py:20-27): hour ≥ 23 or hour < 8, hour taken in
the +8:00 reference zone. -/
def is_quiet_hours (hour : Nat) : Bool :=
  decide (23 ≤ hour) || decide (hour < 8)

/-- Outcome of one channel send: the (success, error) pair the function
returns, plus whether a real delivery was attempted on the wire. -/
structure SendOutcome where
  success : Bool
  error : Option String
  dispatched : Bool
deriving DecidableEq, Repr

/-- send_email_notification (notifier.py:30-111), with the SMTP transport
abstracted as smtp_error (none = delivered, some e = the exception text).
config_complete is the truthiness of host, username, password and recipient.
A non-test send during quiet hours is skipped and reported as a success with
the skip message; the quiet-hours check is bypassed when is_test. -/
def send_email_notification (hour : Nat) (is_test : Bool)
    (config_complete : Bool) (smtp_error : Option String) : SendOutcome :=
  if is_test = false ∧ is_quiet_hours hour = true then
    { success := true, error := some "跳过（免打扰时段）", dispatched := false }
  else if config_complete = false then
    { success := false, error := some "SMTP 配置不完整", dispatched := false }
  else
    match smtp_error with
    | none => { success := true, error := none, dispatched := true }
    | some e => { success := false, error := some (e.take 200), dispatched := true }

/-- The webhook transport behaviour: HTTP 200 with an application-level
errcode in the JSON body, a non-200 transport status, or an exception. -/
inductive WebhookResp where
  | ok (errcode : Int) (errmsg : String)
  | httpError (status : Nat)
  | exn (msg : String)
deriving DecidableEq

/-- send_dingtalk_webhook (notifier.py:114-167): same quiet-hours gate; a
transport-level 200 succeeds only when the embedded errcode is 0. -/
def send_dingtalk_webhook (hour : Nat) (is_test : Bool)
    (url_configured : Bool) (resp : WebhookResp) : SendOutcome :=
  if is_test = false ∧ is_quiet_hours hour = true then
    { success := true, error := some "跳过（免打扰时段）", dispatched := false }
  else if url_configured = false then
    { success := false, error := some "Webhook URL 未配置", dispatched := false }
  else
    match resp with
    | .ok errcode errmsg =>
      if errcode = 0 then { success := true, error := none, dispatched := true }
      else { success := false, error := some errmsg, dispatched := true }
    | .httpError status =>
      { success := false, error := some ("HTTP " ++ toString status), dispatched := true }
    | .exn msg => { success := false, error := some (msg.take 200), dispatched := true }

/-! ## Scheduled cycle and manual tests -/

/-- One MonitoredModel row (app/models.py:55-67): database primary key, API
model identifier (unique) and display name. -/
structure MonitoredModelRow where
  id : Nat
  model_id : String
  display_name : String
deriving DecidableEq, Repr

/-- One TestResult row as written by a probe (db.add in scheduler.py:78-85,
121-129 and tests.py:45-52); model_id is the owning model's primary key. -/
structure WrittenResult where
  model_id : Nat
  success : Bool
  error_code : Option Nat
  error_message : Option String
deriving DecidableEq, Repr

/-- One invocation of the notification dispatcher notify_model_failure
(notifier.py:170-226) with the error detail it was handed. -/
structure NotificationEvent where
  model_name : String
  model_id : String
  error_code : Option Nat
  error_message : Option String
deriving DecidableEq, Repr

/-- Build the TestResult row persisted for one probe outcome. -/
def mk_result_row (m : MonitoredModelRow) (o : Bool × Option Nat × Option String) :
    WrittenResult :=
  { model_id := m.id, success := o.1, error_code := o.2.1, error_message := o.2.2 }

/-- run_scheduled_tests (scheduler.py:32-152).  probe1 and probe2 give the
upstream behaviour seen by the phase-1 probe and the phase-2 retest of each
model id.  Returns the TestResult rows written and the dispatcher
invocations made: phase 1 probes every enabled model and writes one row per
model without notifying; when some models failed, phase 2 re-probes exactly
those, writes a second row each, and invokes the dispatcher with the
retest's error detail for the models whose retest failed again. -/
def run_scheduled_tests (configured : Bool) (models : List MonitoredModelRow)
    (probe1 probe2 : String → ProbeResponse) :
    List WrittenResult × List NotificationEvent :=
  if configured = false then ([], [])
  else if models = [] then ([], [])
  else
    let rows1 := models.map fun m =>
      mk_result_row m (test_model_connectivity true (probe1 m.model_id))
    let failed := models.filter fun m =>
      !(test_model_connectivity true (probe1 m.model_id)).1
    if failed = [] then (rows1, [])
    else
      let rows2 := failed.map fun m =>
        mk_result_row m (test_model_connectivity true (probe2 m.model_id))
      let notes := (failed.filter fun m =>
          !(test_model_connectivity true (probe2 m.model_id)).1).map fun m =>
        { model_name := m.display_name
          model_id := m.model_id
          error_code := (test_model_connectivity true (probe2 m.model_id)).2.1
          error_message := (test_model_connectivity true (probe2 m.model_id)).2.2 }
      (rows1 ++ rows2, notes)

/-- run_single_test (tests.py:36-72): probe once, persist exactly one row,
and invoke the dispatcher only when send_notification is set and the probe
failed.  Both manual endpoints call it with send_notification=False. -/
def run_single_test (configured : Bool) (m : MonitoredModelRow)
    (resp : ProbeResponse) (send_notification : Bool) :
    List WrittenResult × List NotificationEvent :=
  let o := test_model_connectivity configured resp
  ([mk_result_row m o],
    if send_notification = true ∧ o.1 = false then
      [{ model_name := m.display_name, model_id := m.model_id
         error_code := o.2.1, error_message := o.2.2 }]
    else [])

/-- run_all_tests (tests.py:75-96): the manual run-all endpoint; returns
early with nothing written when the API is not configured, else runs the
single-phase no-notification test per enabled model. -/
def run_all_tests (configured : Bool) (models : List MonitoredModelRow)
    (probe : String → ProbeResponse) :
    List WrittenResult × List NotificationEvent :=
  if configured = false then ([], [])
  else
    let per := models.map fun m => run_single_test true m (probe m.model_id) false
    ((per.map Prod.fst).flatten, (per.map Prod.snd).flatten)

/-- run_single_model_test (tests.py:99-116): the manual single-model
endpoint; does not check the API configuration and always passes
send_notification=False. -/
def run_single_model_test (configured : Bool) (m : MonitoredModelRow)
    (resp : ProbeResponse) : List WrittenResult × List NotificationEvent :=
  run_single_test configured m resp false

/-! ## Theorems -/

/-- C9: probe outcome classification.  Under a configured API, a probe
succeeds exactly when the HTTP response has status 200 and a nonempty
choices list; 200 with an absent or empty choices list fails with the
synthetic empty-response code 200; a timeout fails with sentinel 408, a
connection failure with sentinel 503, and any other exception with generic
sentinel 500 and the exception text truncated to 50 characters. -/
theorem c9_probe_outcome_classification (resp : ProbeResponse) :
    ((test_model_connectivity true resp).1 = true ↔
      ∃ cs detail, resp = .http 200 (some cs) detail ∧ cs ≠ []) ∧
    (∀ detail, test_model_connectivity true (.http 200 none detail) =
      (false, some 200, some "空响应")) ∧
    (∀ detail, test_model_connectivity true (.http 200 (some []) detail) =
      (false, some 200, some "空响应")) ∧
    (∀ status choices detail, status ≠ 200 →
      test_model_connectivity true (.http status choices detail) =
        (false, some status, some (get_brief_error_message status detail))) ∧
    test_model_connectivity true .timeout = (false, some 408, some "请求超时 (60秒)") ∧
    test_model_connectivity true .connectError = (false, some 503, some "连接失败") ∧
    (∀ msg, test_model_connectivity true (.otherException msg) =
      (false, some 500, some ("错误: " ++ msg.take 50))) := by
  refine ⟨?_, fun detail => rfl, fun detail => rfl,
    fun status choices detail h => by simp [test_model_connectivity, h],
    rfl, rfl, fun msg => rfl⟩
  cases resp with
  | http status choices detail =>
    by_cases h200 : status = 200
    · subst h200
      cases choices with
      | none => simp [test_model_connectivity]
      | some cs =>
        cases cs with
        | nil => simp [test_model_connectivity]
        | cons a l =>
          constructor
          · intro _
            exact ⟨a :: l, detail, rfl, List.cons_ne_nil a l⟩
          · intro _
            simp [test_model_connectivity]
    · simp [test_model_connectivity, h200]
  | timeout => simp [test_model_connectivity]
  | connectError => simp [test_model_connectivity]
  | otherException msg => simp [test_model_connectivity]

/-- Witness for C9 at a concrete non-200 response. -/
theorem c9_witness :
    404 ≠ 200 ∧
    test_model_connectivity true (.http 404 none "Not Found") =
      (false, some 404, some (get_brief_error_message 404 "Not Found")) := by
  refine ⟨by decide, ?_⟩
  exact (c9_probe_outcome_classification (.http 404 none "Not Found")).2.2.2.1 404
    none "Not Found" (by decide)

/-- C10: whenever a probe reports success its error code and error message
are both none, and consequently every row persisted with success = true, on
the scheduled path and on the manual path, has null errorCode and null
errorMessage. -/
theorem c10_success_has_null_error_fields :
    (∀ (configured : Bool) (resp : ProbeResponse),
      (test_model_connectivity configured resp).1 = true →
      (test_model_connectivity configured resp).2.1 = none ∧
      (test_model_connectivity configured resp).2.2 = none) ∧
    (∀ (models : List MonitoredModelRow) (probe1 probe2 : String → ProbeResponse)
      (row : WrittenResult),
      row ∈ (run_scheduled_tests true models probe1 probe2).1 →
      row.success = true → row.error_code = none ∧ row.error_message = none) ∧
    (∀ (configured : Bool) (m : MonitoredModelRow) (resp : ProbeResponse)
      (sn : Bool) (row : WrittenResult),
      row ∈ (run_single_test configured m resp sn).1 →
      row.success = true → row.error_code = none ∧ row.error_message = none) := by
  have base : ∀ (c : Bool) (r : ProbeResponse),
      (test_model_connectivity c r).1 = true →
      (test_model_connectivity c r).2.1 = none ∧
      (test_model_connectivity c r).2.2 = none := by
    intro c r h
    cases c with
    | false => simp [test_model_connectivity] at h
    | true =>
      cases r with
      | http s ch d =>
        by_cases h200 : s = 200
        · subst h200
          cases ch with
          | none => simp [test_model_connectivity] at h
          | some cs =>
            cases cs with
            | nil => simp [test_model_connectivity] at h
            | cons a l => constructor <;> simp [test_model_connectivity]
        · simp [test_model_connectivity, h200] at h
      | timeout => simp [test_model_connectivity] at h
      | connectError => simp [test_model_connectivity] at h
      | otherException msg => simp [test_model_connectivity] at h
  refine ⟨base, ?_, ?_⟩
  · intro models probe1 probe2 row hrow hsucc
    by_cases hm : models = []
    · simp [run_scheduled_tests, hm] at hrow
    · by_cases hf : (models.filter fun m =>
          !(test_model_connectivity true (probe1 m.model_id)).1) = []
      · simp only [run_scheduled_tests, hm, hf, if_false, reduceIte] at hrow
        obtain ⟨m, -, rfl⟩ := List.mem_map.mp hrow
        exact base true _ hsucc
      · simp only [run_scheduled_tests, hm, hf, if_false, reduceIte] at hrow
        rcases List.mem_append.mp hrow with h | h
        · obtain ⟨m, -, rfl⟩ := List.mem_map.mp h
          exact base true _ hsucc
        · obtain ⟨m, -, rfl⟩ := List.mem_map.mp h
          exact base true _ hsucc
  · intro configured m resp sn row hrow hsucc
    have : row = mk_result_row m (test_model_connectivity configured resp) := by
      simpa [run_single_test] using hrow
    subst this
    exact base configured resp hsucc

/-- Witness for C10 at a concrete successful probe. -/
theorem c10_witness :
    (test_model_connectivity true (.http 200 (some ["ok"]) "")).1 = true ∧
    (test_model_connectivity true (.http 200 (some ["ok"]) "")).2.1 = none ∧
    (test_model_connectivity true (.http 200 (some ["ok"]) "")).2.2 = none := by
  refine ⟨rfl, ?_⟩
  exact c10_success_has_null_error_fields.1 true (.http 200 (some ["ok"]) "") rfl

/-- C2: for every valid settings triple and every now, the computed next-run
instant is todayStart + k·interval for some k ≥ 0 and is strictly after now;
when now precedes todayStart it is exactly todayStart. -/
theorem c2_next_run_alignment (interval_minutes start_hour start_minute now : Nat)
    (h5 : 5 ≤ interval_minutes) (h1440 : interval_minutes ≤ 1440)
    (hh : start_hour ≤ 23) (hm : start_minute ≤ 59) :
    (∃ k : Nat, compute_next_run interval_minutes start_hour start_minute now =
      start_hour * 3600 + start_minute * 60 + k * (interval_minutes * 60)) ∧
    now < compute_next_run interval_minutes start_hour start_minute now ∧
    (now < start_hour * 3600 + start_minute * 60 →
      compute_next_run interval_minutes start_hour start_minute now =
        start_hour * 3600 + start_minute * 60) := by
  simp only [compute_next_run]
  by_cases hlt : now < start_hour * 3600 + start_minute * 60
  · rw [if_pos hlt]
    exact ⟨⟨0, by simp⟩, hlt, fun _ => rfl⟩
  · rw [if_neg hlt]
    have hle : start_hour * 3600 + start_minute * 60 ≤ now := Nat.le_of_not_lt hlt
    have hM : 0 < 60 * interval_minutes :=
      Nat.mul_pos (by norm_num) (lt_of_lt_of_le (by norm_num) h5)
    have key : now - (start_hour * 3600 + start_minute * 60) <
        ((now - (start_hour * 3600 + start_minute * 60)) / (60 * interval_minutes) + 1) *
          (60 * interval_minutes) := by
      have h1 := Nat.div_add_mod (now - (start_hour * 3600 + start_minute * 60))
        (60 * interval_minutes)
      have h2 := Nat.mod_lt (now - (start_hour * 3600 + start_minute * 60)) hM
      calc now - (start_hour * 3600 + start_minute * 60)
          = 60 * interval_minutes *
              ((now - (start_hour * 3600 + start_minute * 60)) / (60 * interval_minutes)) +
            (now - (start_hour * 3600 + start_minute * 60)) % (60 * interval_minutes) :=
            h1.symm
        _ < 60 * interval_minutes *
              ((now - (start_hour * 3600 + start_minute * 60)) / (60 * interval_minutes)) +
            60 * interval_minutes := Nat.add_lt_add_left h2 _
        _ = ((now - (start_hour * 3600 + start_minute * 60)) / (60 * interval_minutes) + 1) *
              (60 * interval_minutes) := by ring
    refine ⟨⟨(now - (start_hour * 3600 + start_minute * 60)) / (60 * interval_minutes) + 1,
      rfl⟩, ?_, fun hcon => absurd hcon hlt⟩
    have hmul : ((now - (start_hour * 3600 + start_minute * 60)) / (60 * interval_minutes) + 1) *
        (interval_minutes * 60) =
        ((now - (start_hour * 3600 + start_minute * 60)) / (60 * interval_minutes) + 1) *
        (60 * interval_minutes) := by ring
    rw [hmul]
    have hnow : start_hour * 3600 + start_minute * 60 +
        (now - (start_hour * 3600 + start_minute * 60)) = now := Nat.add_sub_cancel' hle
    calc now = start_hour * 3600 + start_minute * 60 +
        (now - (start_hour * 3600 + start_minute * 60)) := hnow.symm
      _ < start_hour * 3600 + start_minute * 60 +
          ((now - (start_hour * 3600 + start_minute * 60)) / (60 * interval_minutes) + 1) *
            (60 * interval_minutes) := Nat.add_lt_add_left key _

/-- Witness for C2 at interval 60, anchor 00:00, now 30 seconds past. -/
theorem c2_witness :
    5 ≤ 60 ∧ 60 ≤ 1440 ∧ 0 ≤ 23 ∧ 0 ≤ 59 ∧ 30 < compute_next_run 60 0 0 30 := by
  refine ⟨by decide, by decide, by decide, by decide, ?_⟩
  exact (c2_next_run_alignment 60 0 0 30 (by decide) (by decide) (by decide) (by decide)).2.1

/-- C3: the schedule-recompute operation is idempotent (re-applying it with
identical settings and the same now yields the same job and next-run
instant), but the settings route cannot rebuild the running schedule even
when timing settings actually change: reading settings.test_start_hour
raises AttributeError because the ORM model maps no such column, so the
handler errors out before installing any job. -/
theorem c3_recompute_idempotent_but_rebuild_crashes :
    ((update_settings_route { test_interval_minutes := some 30 } {}
        (some { interval_minutes := 60, next_run := 3600 }) 7200).2 =
      .error (.attributeError "test_start_hour")) ∧
    (∀ (st : Option SchedJob) (i sh sm now : Nat),
      update_scheduler_settings (update_scheduler_settings st i sh sm now) i sh sm now =
        update_scheduler_settings st i sh sm now) :=
  ⟨rfl, fun _ _ _ _ _ => rfl⟩

/-- C4: a settings update supplying testIntervalMinutes persists the value
but then raises AttributeError instead of rescheduling, because Settings
maps no test_start_hour column; and an update supplying only testStartHour
parses to an empty update (the schema has no such field) whose rebuild guard
itself raises the same AttributeError. -/
theorem c4_settings_update_raises_attribute_error :
    ((update_settings_route { test_interval_minutes := some 30 } {} none 0).1.test_interval_minutes
      = 30) ∧
    ((update_settings_route { test_interval_minutes := some 30 } {} none 0).2 =
      .error (.attributeError "test_start_hour")) ∧
    (scheduler_rebuild_guard {} = .error (.attributeError "test_start_hour")) :=
  ⟨rfl, rfl, rfl⟩

/-- C7: during quiet hours (hour ≥ 23 or hour < 8 in the +8:00 zone) a
non-test send on either channel dispatches nothing and reports a soft
success, and a test send is computed independently of the hour. -/
theorem c7_quiet_hours_suppression (hour : Nat) (config_complete url_configured : Bool)
    (smtp_error : Option String) (wresp : WebhookResp)
    (hq : 23 ≤ hour ∨ hour < 8) :
    (send_email_notification hour false config_complete smtp_error).dispatched = false ∧
    (send_email_notification hour false config_complete smtp_error).success = true ∧
    (send_dingtalk_webhook hour false url_configured wresp).dispatched = false ∧
    (send_dingtalk_webhook hour false url_configured wresp).success = true ∧
    (∀ h2 : Nat, send_email_notification hour true config_complete smtp_error =
      send_email_notification h2 true config_complete smtp_error) ∧
    (∀ h2 : Nat, send_dingtalk_webhook hour true url_configured wresp =
      send_dingtalk_webhook h2 true url_configured wresp) := by
  have hquiet : is_quiet_hours hour = true := by
    simp only [is_quiet_hours, Bool.or_eq_true, decide_eq_true_eq]
    exact hq
  refine ⟨?_, ?_, ?_, ?_, fun h2 => ?_, fun h2 => ?_⟩
  · simp [send_email_notification, hquiet]
  · simp [send_email_notification, hquiet]
  · simp [send_dingtalk_webhook, hquiet]
  · simp [send_dingtalk_webhook, hquiet]
  · simp [send_email_notification]
  · simp [send_dingtalk_webhook]

/-- Witness for C7 at hour 23 (the 23:30 scenario). -/
theorem c7_witness :
    (23 ≤ 23 ∨ 23 < 8) ∧
    (send_email_notification 23 false true none).dispatched = false ∧
    (send_email_notification 23 false true none).success = true := by
  refine ⟨Or.inl (le_refl 23), ?_, ?_⟩
  · exact (c7_quiet_hours_suppression 23 true true none (.ok 0 "") (Or.inl (le_refl 23))).1
  · exact (c7_quiet_hours_suppression 23 true true none (.ok 0 "") (Or.inl (le_refl 23))).2.1

/-- Manual runs write no notification: the per-model second components of
run_single_test with send_notification = false are all empty. -/
lemma manual_per_snd_nil (models : List MonitoredModelRow)
    (probe : String → ProbeResponse) :
    ((models.map fun m => run_single_test true m (probe m.model_id) false).map
      Prod.snd).flatten = [] := by
  induction models with
  | nil => rfl
  | cons a l ih => simp [run_single_test]

/-- Manual runs write exactly one row per model, keyed by that model. -/
lemma manual_per_fst_ids (models : List MonitoredModelRow)
    (probe : String → ProbeResponse) :
    (((models.map fun m => run_single_test true m (probe m.model_id) false).map
      Prod.fst).flatten).map WrittenResult.model_id =
      models.map MonitoredModelRow.id := by
  induction models with
  | nil => rfl
  | cons a l ih => simpa [run_single_test, mk_result_row] using ih

/-- C8: manual tests never alert.  The run-all endpoint and the single-model
endpoint persist exactly one ProbeResult per probed model and dispatch no
notification, regardless of probe outcome. -/
theorem c8_manual_tests_never_alert (configured : Bool)
    (models : List MonitoredModelRow) (probe : String → ProbeResponse)
    (m : MonitoredModelRow) (resp : ProbeResponse) :
    (run_all_tests true models probe).2 = [] ∧
    (run_all_tests true models probe).1.map WrittenResult.model_id =
      models.map MonitoredModelRow.id ∧
    run_all_tests false models probe = ([], []) ∧
    (run_single_model_test configured m resp).2 = [] ∧
    (run_single_model_test configured m resp).1.map WrittenResult.model_id = [m.id] := by
  refine ⟨?_, ?_, rfl, ?_, rfl⟩
  · exact manual_per_snd_nil models probe
  · exact manual_per_fst_ids models probe
  · simp [run_single_model_test, run_single_test]

/-- C6: rolling success rate.  The rate is none exactly when no probe result
of the model lies in the window, and otherwise equals
100·successCount/totalCount rounded to one decimal place, the counts being
the probes of the model in the window and the successful ones among them. -/
theorem c6_rolling_success_rate (rows : List TestResultRow) (mid now days : Nat) :
    (calculate_rate rows mid now days = none ↔
      rows.filter (fun r =>
        decide (r.model_id = mid ∧ now - days * 86400 ≤ r.tested_at)) = []) ∧
    (∀ r ∈ rows, r.model_id = mid → now - days * 86400 ≤ r.tested_at →
      calculate_rate rows mid now days = some (round1
        (((rows.countP fun r2 =>
            decide (r2.model_id = mid ∧ now - days * 86400 ≤ r2.tested_at ∧
              r2.success = true)) : ℚ) /
          ((rows.countP fun r2 =>
            decide (r2.model_id = mid ∧ now - days * 86400 ≤ r2.tested_at)) : ℚ) *
          100))) := by
  simp only [calculate_rate]
  by_cases h0 : (rows.filter fun r =>
      decide (r.model_id = mid ∧ now - days * 86400 ≤ r.tested_at)).length = 0
  · rw [if_pos h0]
    refine ⟨⟨fun _ => List.length_eq_zero.mp h0, fun _ => rfl⟩, ?_⟩
    intro r hr hmid hcut
    exfalso
    have hmem : r ∈ rows.filter fun r =>
        decide (r.model_id = mid ∧ now - days * 86400 ≤ r.tested_at) :=
      List.mem_filter.mpr ⟨hr, by simp [hmid, hcut]⟩
    rw [List.length_eq_zero.mp h0] at hmem
    exact List.not_mem_nil r hmem
  · rw [if_neg h0]
    refine ⟨⟨fun h => (Option.some_ne_none _ h).elim,
      fun h => absurd (by rw [h]; rfl) h0⟩, ?_⟩
    intro r hr hmid hcut
    rw [List.countP_eq_length_filter, List.countP_eq_length_filter]

/-- Witness for C6: 7 successes and 3 failures of model 1 in the 1-day
window yield a 70.0 percent rate. -/
theorem c6_witness :
    calculate_rate [⟨1, 86400, true⟩, ⟨1, 86401, true⟩, ⟨1, 86402, true⟩,
      ⟨1, 86403, true⟩, ⟨1, 86404, true⟩, ⟨1, 86405, true⟩, ⟨1, 86406, true⟩,
      ⟨1, 86407, false⟩, ⟨1, 86408, false⟩, ⟨1, 86409, false⟩] 1 172800 1 =
      some 70 := by
  have h := (c6_rolling_success_rate [⟨1, 86400, true⟩, ⟨1, 86401, true⟩,
    ⟨1, 86402, true⟩, ⟨1, 86403, true⟩, ⟨1, 86404, true⟩, ⟨1, 86405, true⟩,
    ⟨1, 86406, true⟩, ⟨1, 86407, false⟩, ⟨1, 86408, false⟩,
    ⟨1, 86409, false⟩] 1 172800 1).2 ⟨1, 86400, true⟩ (by simp) rfl (by decide)
  rw [h]
  have hc1 : ([⟨1, 86400, true⟩, ⟨1, 86401, true⟩, ⟨1, 86402, true⟩,
      ⟨1, 86403, true⟩, ⟨1, 86404, true⟩, ⟨1, 86405, true⟩, ⟨1, 86406, true⟩,
      ⟨1, 86407, false⟩, ⟨1, 86408, false⟩,
      ⟨1, 86409, false⟩] : List TestResultRow).countP (fun r2 =>
        decide (r2.model_id = 1 ∧ 172800 - 1 * 86400 ≤ r2.tested_at ∧
          r2.success = true)) = 7 := by decide
  have hc2 : ([⟨1, 86400, true⟩, ⟨1, 86401, true⟩, ⟨1, 86402, true⟩,
      ⟨1, 86403, true⟩, ⟨1, 86404, true⟩, ⟨1, 86405, true⟩, ⟨1, 86406, true⟩,
      ⟨1, 86407, false⟩, ⟨1, 86408, false⟩,
      ⟨1, 86409, false⟩] : List TestResultRow).countP (fun r2 =>
        decide (r2.model_id = 1 ∧ 172800 - 1 * 86400 ≤ r2.tested_at)) = 10 := by
    decide
  rw [hc1, hc2]
  norm_num [round1, round_half_even]

/-- Folding later_of from a some-accumulator yields a member (or the seed)
that dominates the seed and every list element in tested_at. -/
lemma foldl_later_of_some (l : List TestResultRow) (a : TestResultRow) :
    ∃ b, l.foldl later_of (some a) = some b ∧ (b ∈ l ∨ b = a) ∧
      a.tested_at ≤ b.tested_at ∧ ∀ c ∈ l, c.tested_at ≤ b.tested_at := by
  induction l generalizing a with
  | nil => exact ⟨a, rfl, Or.inr rfl, le_refl _, by simp⟩
  | cons x xs ih =>
    by_cases hx : a.tested_at < x.tested_at
    · obtain ⟨b, h1, h2, h3, h4⟩ := ih x
      refine ⟨b, ?_, ?_, le_trans (le_of_lt hx) h3, ?_⟩
      · simpa [later_of, hx] using h1
      · rcases h2 with h | h
        · exact Or.inl (List.mem_cons_of_mem x h)
        · exact Or.inl (h ▸ List.mem_cons_self x xs)
      · intro c hc
        rcases List.mem_cons.mp hc with rfl | hc
        · exact h3
        · exact h4 c hc
    · obtain ⟨b, h1, h2, h3, h4⟩ := ih a
      refine ⟨b, ?_, ?_, h3, ?_⟩
      · simpa [later_of, hx] using h1
      · rcases h2 with h | h
        · exact Or.inl (List.mem_cons_of_mem x h)
        · exact Or.inr h
      · intro c hc
        rcases List.mem_cons.mp hc with rfl | hc
        · exact le_trans (Nat.le_of_not_lt hx) h3
        · exact h4 c hc

/-- The last-row query answers none exactly on an empty bucket. -/
lemma last_by_tested_at_eq_none_iff (l : List TestResultRow) :
    last_by_tested_at l = none ↔ l = [] := by
  cases l with
  | nil => simp [last_by_tested_at]
  | cons x xs =>
    obtain ⟨b, h1, -, -, -⟩ := foldl_later_of_some xs x
    have hx : last_by_tested_at (x :: xs) = some b := by
      simpa [last_by_tested_at, later_of] using h1
    simp [hx]

/-- The last-row query answers a member dominating every bucket member. -/
lemma last_by_tested_at_spec (l : List TestResultRow) (b : TestResultRow)
    (h : last_by_tested_at l = some b) :
    b ∈ l ∧ ∀ c ∈ l, c.tested_at ≤ b.tested_at := by
  cases l with
  | nil => simp [last_by_tested_at] at h
  | cons x xs =>
    obtain ⟨b2, h1, h2, h3, h4⟩ := foldl_later_of_some xs x
    have hx : last_by_tested_at (x :: xs) = some b2 := by
      simpa [last_by_tested_at, later_of] using h1
    rw [hx] at h
    obtain rfl : b2 = b := Option.some_injective _ h
    constructor
    · rcases h2 with h5 | h5
      · exact List.mem_cons_of_mem x h5
      · exact h5 ▸ List.mem_cons_self x xs
    · intro c hc
      rcases List.mem_cons.mp hc with rfl | hc
      · exact h3
      · exact h4 c hc

/-- C5: hourly status aggregation.  For every model and now (any instant at
least one day past the epoch), the answer is an ordered sequence of exactly
24 one-hour buckets whose last bucket covers the current +8:00 hour;
a bucket with zero probes reports none (no-data), and a bucket holding a
probe that is strictly later than every other probe in the bucket reports
that probe's outcome. -/
theorem c5_hourly_status (rows : List TestResultRow) (mid now : Nat)
    (hnow : 86400 ≤ now) :
    (calculate_hourly_status rows mid now).length = 24 ∧
    (∀ i (hi : i < (calculate_hourly_status rows mid now).length),
      ((calculate_hourly_status rows mid now).get ⟨i, hi⟩).timestamp =
        slot_start_beijing now i ∧
      (((calculate_hourly_status rows mid now).get ⟨i, hi⟩).success = none ↔
        bucket_rows rows mid now i = []) ∧
      (∀ r ∈ bucket_rows rows mid now i,
        (∀ r2 ∈ bucket_rows rows mid now i, r2 ≠ r → r2.tested_at < r.tested_at) →
        ((calculate_hourly_status rows mid now).get ⟨i, hi⟩).success =
          some r.success)) ∧
    (∀ i, i < 23 → slot_start_beijing now (i + 1) = slot_start_beijing now i + 3600) ∧
    (slot_start_beijing now 23 ≤ now + BEIJING_OFFSET ∧
      now + BEIJING_OFFSET < slot_start_beijing now 23 + 3600) := by
  have hget : ∀ (i : Nat) (hi : i < (calculate_hourly_status rows mid now).length),
      (calculate_hourly_status rows mid now).get ⟨i, hi⟩ =
        { hour := slot_start_beijing now i / 3600 % 24
          timestamp := slot_start_beijing now i
          success := (last_by_tested_at (bucket_rows rows mid now i)).map
            (·.success) } := by
    intro i hi
    simp [calculate_hourly_status]
  refine ⟨by simp [calculate_hourly_status], fun i hi => ?_, fun i hi23 => ?_, ?_⟩
  · rw [hget i hi]
    refine ⟨rfl, ?_, ?_⟩
    · rw [Option.map_eq_none']
      exact last_by_tested_at_eq_none_iff _
    · intro r hr hmax
      cases hlast : last_by_tested_at (bucket_rows rows mid now i) with
      | none =>
        rw [(last_by_tested_at_eq_none_iff _).mp hlast] at hr
        exact absurd hr (List.not_mem_nil r)
      | some b =>
        obtain ⟨hbmem, hble⟩ := last_by_tested_at_spec _ b hlast
        have hbr : b = r := by
          by_contra hne
          exact absurd (hble r hr) (Nat.not_le_of_lt (hmax b hbmem hne))
        subst hbr
        simp [hlast]
  · simp only [slot_start_beijing, BEIJING_OFFSET]
    omega
  · constructor <;> · simp only [slot_start_beijing, BEIJING_OFFSET]; omega

/-- Witness for C5: in the current-hour bucket, a failing probe at minute 10
followed by a succeeding probe at minute 45 reports success. -/
theorem c5_witness :
    86400 ≤ 200000 ∧
    ∃ hi : 23 < (calculate_hourly_status
        [⟨1, 198600, false⟩, ⟨1, 200700, true⟩] 1 200000).length,
      ((calculate_hourly_status [⟨1, 198600, false⟩, ⟨1, 200700, true⟩] 1
        200000).get ⟨23, hi⟩).success = some true := by
  refine ⟨by decide, ?_⟩
  have h := c5_hourly_status [⟨1, 198600, false⟩, ⟨1, 200700, true⟩] 1 200000
    (by decide)
  have hi : 23 < (calculate_hourly_status
      [⟨1, 198600, false⟩, ⟨1, 200700, true⟩] 1 200000).length := by
    rw [h.1]
    decide
  refine ⟨hi, ?_⟩
  have hx := (h.2.1 23 hi).2.2 ⟨1, 200700, true⟩ (by decide) (by decide)
  simpa using hx

/-- Members of a list with nodup keys are determined by their key. -/
lemma nodup_map_inj {α κ : Type} (key : α → κ) (l : List α)
    (h : (l.map key).Nodup) :
    ∀ x ∈ l, ∀ y ∈ l, key x = key y → x = y := by
  induction l with
  | nil =>
    intro x hx
    exact absurd hx (List.not_mem_nil x)
  | cons a t ih =>
    intro x hx y hy hxy
    have hnd2 : (t.map key).Nodup := (List.nodup_cons.mp h).2
    have hna : key a ∉ t.map key := (List.nodup_cons.mp h).1
    rcases List.mem_cons.mp hx with rfl | hx2 <;> rcases List.mem_cons.mp hy with rfl | hy2
    · rfl
    · exact absurd (hxy ▸ List.mem_map_of_mem key hy2) hna
    · exact absurd (hxy ▸ List.mem_map_of_mem key hx2) hna
    · exact ih hnd2 x hx2 y hy2 hxy

/-- Filtering preserves key nodup-ness. -/
lemma nodup_map_filter {α κ : Type} (key : α → κ) (p : α → Bool) (l : List α)
    (h : (l.map key).Nodup) : ((l.filter p).map key).Nodup :=
  h.sublist (List.Sublist.map key (List.filter_sublist l))

/-- Filtering the image of a nodup-keyed list by the key of one member picks
exactly that member's image. -/
lemma filter_map_eq_single {α β κ : Type} [DecidableEq κ]
    (key_src : α → κ) (key_out : β → κ) (f : α → β)
    (hkey : ∀ x, key_out (f x) = key_src x) :
    ∀ (l : List α), (l.map key_src).Nodup → ∀ m ∈ l,
      (l.map f).filter (fun b => decide (key_out b = key_src m)) = [f m] := by
  intro l
  induction l with
  | nil =>
    intro _ m hm
    exact absurd hm (List.not_mem_nil m)
  | cons x xs ih =>
    intro hnd m hm
    have hnd2 : (xs.map key_src).Nodup := (List.nodup_cons.mp hnd).2
    have hx : key_src x ∉ xs.map key_src := (List.nodup_cons.mp hnd).1
    rcases List.mem_cons.mp hm with rfl | hm2
    · simp only [List.map_cons, List.filter_cons]
      rw [if_pos (by simp [hkey])]
      have htail : (xs.map f).filter (fun b => decide (key_out b = key_src m)) = [] := by
        rw [List.filter_eq_nil_iff]
        intro b hb
        obtain ⟨y, hy, rfl⟩ := List.mem_map.mp hb
        simp only [hkey, decide_eq_true_eq]
        intro heq
        exact hx (heq ▸ List.mem_map_of_mem key_src hy)
      rw [htail]
    · have hxm : key_src x ≠ key_src m := by
        intro heq
        exact hx (heq ▸ List.mem_map_of_mem key_src hm2)
      simp only [List.map_cons, List.filter_cons]
      rw [if_neg (by simp [hkey, hxm])]
      exact ih hnd2 m hm2

/-- Filtering the image of a list by a key carried by none of its members
yields the empty list. -/
lemma filter_map_eq_nil {α β κ : Type} [DecidableEq κ]
    (key_src : α → κ) (key_out : β → κ) (f : α → β)
    (hkey : ∀ x, key_out (f x) = key_src x)
    (l : List α) (k : κ) (hk : ∀ x ∈ l, key_src x ≠ k) :
    (l.map f).filter (fun b => decide (key_out b = k)) = [] := by
  rw [List.filter_eq_nil_iff]
  intro b hb
  obtain ⟨y, hy, rfl⟩ := List.mem_map.mp hb
  simp [hkey, hk y hy]

/-- C1: two-phase confirm-before-alert.  For an enabled model of a scheduled
cycle: if its phase-1 probe fails and its phase-2 retest succeeds, no
notification is dispatched for it and exactly two result rows are written
for it; if both probes fail, exactly one notification event is dispatched
for it, carrying the retest's error code and message (and two rows are
written); if phase 1 succeeds, no notification is dispatched for it and
exactly one row is written. -/
theorem c1_two_phase_alerting (models : List MonitoredModelRow)
    (probe1 probe2 : String → ProbeResponse) (m : MonitoredModelRow)
    (hm : m ∈ models)
    (hnd : (models.map MonitoredModelRow.id).Nodup)
    (hnds : (models.map MonitoredModelRow.model_id).Nodup) :
    (((test_model_connectivity true (probe1 m.model_id)).1 = false ∧
        (test_model_connectivity true (probe2 m.model_id)).1 = true) →
      ((run_scheduled_tests true models probe1 probe2).1.filter
        (fun w => decide (w.model_id = m.id))).length = 2 ∧
      (run_scheduled_tests true models probe1 probe2).2.filter
        (fun n => decide (n.model_id = m.model_id)) = []) ∧
    (((test_model_connectivity true (probe1 m.model_id)).1 = false ∧
        (test_model_connectivity true (probe2 m.model_id)).1 = false) →
      ((run_scheduled_tests true models probe1 probe2).1.filter
        (fun w => decide (w.model_id = m.id))).length = 2 ∧
      (run_scheduled_tests true models probe1 probe2).2.filter
        (fun n => decide (n.model_id = m.model_id)) =
        [{ model_name := m.display_name, model_id := m.model_id
           error_code := (test_model_connectivity true (probe2 m.model_id)).2.1
           error_message := (test_model_connectivity true (probe2 m.model_id)).2.2 }]) ∧
    ((test_model_connectivity true (probe1 m.model_id)).1 = true →
      ((run_scheduled_tests true models probe1 probe2).1.filter
        (fun w => decide (w.model_id = m.id))).length = 1 ∧
      (run_scheduled_tests true models probe1 probe2).2.filter
        (fun n => decide (n.model_id = m.model_id)) = []) := by
  have hne : models ≠ [] := List.ne_nil_of_mem hm
  have hinj_id : ∀ x ∈ models, x.id = m.id → x = m :=
    fun x hx heq => nodup_map_inj MonitoredModelRow.id models hnd x hx m hm heq
  have hinj_mid : ∀ x ∈ models, x.model_id = m.model_id → x = m :=
    fun x hx heq => nodup_map_inj MonitoredModelRow.model_id models hnds x hx m hm heq
  by_cases hf : (models.filter fun x =>
      !(test_model_connectivity true (probe1 x.model_id)).1) = []
  · have hrun : run_scheduled_tests true models probe1 probe2 =
        (models.map fun x =>
          mk_result_row x (test_model_connectivity true (probe1 x.model_id)), []) := by
      simp [run_scheduled_tests, hne, hf]
    refine ⟨fun hab => ?_, fun hab => ?_, fun h1 => ?_⟩
    · exfalso
      have : m ∈ models.filter fun x =>
          !(test_model_connectivity true (probe1 x.model_id)).1 :=
        List.mem_filter.mpr ⟨hm, by simp [hab.1]⟩
      rw [hf] at this
      exact List.not_mem_nil m this
    · exfalso
      have : m ∈ models.filter fun x =>
          !(test_model_connectivity true (probe1 x.model_id)).1 :=
        List.mem_filter.mpr ⟨hm, by simp [hab.1]⟩
      rw [hf] at this
      exact List.not_mem_nil m this
    · rw [hrun]
      constructor
      · rw [filter_map_eq_single MonitoredModelRow.id WrittenResult.model_id _
          (fun _ => rfl) models hnd m hm]
        rfl
      · rfl
  · have hrun : run_scheduled_tests true models probe1 probe2 =
        ((models.map fun x =>
            mk_result_row x (test_model_connectivity true (probe1 x.model_id))) ++
          ((models.filter fun x =>
              !(test_model_connectivity true (probe1 x.model_id)).1).map fun x =>
            mk_result_row x (test_model_connectivity true (probe2 x.model_id))),
          (((models.filter fun x =>
              !(test_model_connectivity true (probe1 x.model_id)).1).filter fun x =>
              !(test_model_connectivity true (probe2 x.model_id)).1).map fun x =>
            ({ model_name := x.display_name, model_id := x.model_id
               error_code := (test_model_connectivity true (probe2 x.model_id)).2.1
               error_message := (test_model_connectivity true (probe2 x.model_id)).2.2 } :
              NotificationEvent))) := by
      simp [run_scheduled_tests, hne, hf]
    have hndF : ((models.filter fun x =>
        !(test_model_connectivity true (probe1 x.model_id)).1).map
        MonitoredModelRow.id).Nodup := nodup_map_filter _ _ _ hnd
    have hndFs : ((models.filter fun x =>
        !(test_model_connectivity true (probe1 x.model_id)).1).map
        MonitoredModelRow.model_id).Nodup := nodup_map_filter _ _ _ hnds
    have hndC : (((models.filter fun x =>
        !(test_model_connectivity true (probe1 x.model_id)).1).filter fun x =>
        !(test_model_connectivity true (probe2 x.model_id)).1).map
        MonitoredModelRow.model_id).Nodup := nodup_map_filter _ _ _ hndFs
    refine ⟨fun hab => ?_, fun hab => ?_, fun h1 => ?_⟩
    · have hmF : m ∈ models.filter fun x =>
          !(test_model_connectivity true (probe1 x.model_id)).1 :=
        List.mem_filter.mpr ⟨hm, by simp [hab.1]⟩
      constructor
      · rw [hrun]
        show (List.filter _ (_ ++ _)).length = 2
        rw [List.filter_append,
          filter_map_eq_single MonitoredModelRow.id WrittenResult.model_id _
            (fun _ => rfl) models hnd m hm,
          filter_map_eq_single MonitoredModelRow.id WrittenResult.model_id _
            (fun _ => rfl) _ hndF m hmF]
        rfl
      · rw [hrun]
        apply filter_map_eq_nil MonitoredModelRow.model_id NotificationEvent.model_id _
          (fun _ => rfl)
        intro x hx heq
        have hxF := List.mem_filter.mp hx
        have hxM := (List.mem_filter.mp hxF.1).1
        have hxm : x = m := hinj_mid x hxM heq
        subst hxm
        have hx2 := hxF.2
        simp [hab.2] at hx2
    · have hmF : m ∈ models.filter fun x =>
          !(test_model_connectivity true (probe1 x.model_id)).1 :=
        List.mem_filter.mpr ⟨hm, by simp [hab.1]⟩
      have hmC : m ∈ (models.filter fun x =>
          !(test_model_connectivity true (probe1 x.model_id)).1).filter fun x =>
          !(test_model_connectivity true (probe2 x.model_id)).1 :=
        List.mem_filter.mpr ⟨hmF, by simp [hab.2]⟩
      constructor
      · rw [hrun]
        show (List.filter _ (_ ++ _)).length = 2
        rw [List.filter_append,
          filter_map_eq_single MonitoredModelRow.id WrittenResult.model_id _
            (fun _ => rfl) models hnd m hm,
          filter_map_eq_single MonitoredModelRow.id WrittenResult.model_id _
            (fun _ => rfl) _ hndF m hmF]
        rfl
      · rw [hrun]
        rw [filter_map_eq_single MonitoredModelRow.model_id NotificationEvent.model_id _
          (fun _ => rfl) _ hndC m hmC]
    · have hnotF : ∀ x ∈ models.filter fun x =>
          !(test_model_connectivity true (probe1 x.model_id)).1, x.id ≠ m.id := by
        intro x hx heq
        have hxM := (List.mem_filter.mp hx).1
        have hxm : x = m := hinj_id x hxM heq
        subst hxm
        have hx2 := (List.mem_filter.mp hx).2
        simp [h1] at hx2
      constructor
      · rw [hrun]
        show (List.filter _ (_ ++ _)).length = 1
        rw [List.filter_append,
          filter_map_eq_single MonitoredModelRow.id WrittenResult.model_id _
            (fun _ => rfl) models hnd m hm,
          filter_map_eq_nil MonitoredModelRow.id WrittenResult.model_id _
            (fun _ => rfl) _ _ hnotF]
        rfl
      · rw [hrun]
        apply filter_map_eq_nil MonitoredModelRow.model_id NotificationEvent.model_id _
          (fun _ => rfl)
        intro x hx heq
        have hxF := (List.mem_filter.mp hx).1
        have hxM := (List.mem_filter.mp hxF).1
        have hxm : x = m := hinj_mid x hxM heq
        subst hxm
        have hx2 := (List.mem_filter.mp hxF).2
        simp [h1] at hx2

/-- Witness for C1: one model failing both the probe and the retest gets
exactly one notification carrying the retest's error detail. -/
theorem c1_witness :
    (run_scheduled_tests true [⟨1, "gpt", "GPT"⟩] (fun _ => .timeout)
      (fun _ => .connectError)).2.filter
        (fun n => decide (n.model_id = "gpt")) =
      [{ model_name := "GPT", model_id := "gpt", error_code := some 503
         error_message := some "连接失败" }] := by
  have h := (c1_two_phase_alerting [⟨1, "gpt", "GPT"⟩] (fun _ => .timeout)
    (fun _ => .connectError) ⟨1, "gpt", "GPT"⟩ (by simp) (by simp) (by simp)).2.1
    ⟨rfl, rfl⟩
  exact h.2

end APIHealthMonitor
